import Mathlib

/-!
Verification of the clothing-store inventory API
(`backend/main.py`: FastAPI handlers over a SQLite store).

Shallow embedding: the relational store is a `Store` record holding the
`categories` and `products` tables as lists in storage (insertion/rowid)
order.  Each HTTP handler becomes a function `Store → args → result × Store`,
mirroring the handler's one-query body; fallible handlers return
`Except ApiError` results, `ApiError.notFound` standing for the
`HTTPException(404)` raise and `ApiError.integrityError` for the storage-level
uniqueness violation that the code leaves unhandled.  Generated integer
primary keys follow SQLite's rule for `INTEGER PRIMARY KEY`: one more than
the largest id currently in the table.  `price` is a Python `float` that is
only stored and echoed back, never computed with, so it is carried here as an
exact `Rat`.
-/

set_option autoImplicit false

namespace ClothingStore

/-- Row of the `categories` table (`class Category`): integer primary key,
unique `name`, free-text `description`. -/
structure Category where
  id : Nat
  name : String
  description : String
deriving Repr, DecidableEq

/-- Row of the `products` table (`class Product`): integer primary key, name,
description, float price, foreign-key `category_id` (not enforced), image
URL, integer stock. -/
structure Product where
  id : Nat
  name : String
  description : String
  price : Rat
  category_id : Nat
  image_url : String
  stock : Int
deriving Repr, DecidableEq

/-- Request schema `CategoryCreate`. -/
structure CategoryCreate where
  name : String
  description : String
deriving Repr, DecidableEq

/-- Request schema `ProductCreate` (also the full-replace update payload;
note it has no `id` field). -/
structure ProductCreate where
  name : String
  description : String
  price : Rat
  category_id : Nat
  image_url : String
  stock : Int
deriving Repr, DecidableEq

/-- The relational file `clothing_store.db`: both tables, rows in storage
(rowid/insertion) order.  The `users` table is schema-only dead data — no
endpoint reads or writes it — so it is omitted. -/
structure Store where
  categories : List Category
  products : List Product
deriving Repr, DecidableEq

/-- Error outcomes of a handler: `notFound` is the explicit
`HTTPException(status_code=404, detail=...)`; `integrityError` is the
unhandled storage-level UNIQUE-constraint failure on category names. -/
inductive ApiError where
  | notFound (detail : String)
  | integrityError
deriving Repr, DecidableEq

/-- SQLite id generation for the `categories` table: one more than the
largest existing id (1 on an empty table). -/
def nextCategoryId (st : Store) : Nat :=
  st.categories.foldr (fun c m => max c.id m) 0 + 1

/-- SQLite id generation for the `products` table. -/
def nextProductId (st : Store) : Nat :=
  st.products.foldr (fun p m => max p.id m) 0 + 1

/-- `POST /categories/` (`create_category`): inserts
`Category(**category.dict())`; the UNIQUE constraint on `name` makes the
commit fail — unhandled — when the name is already taken, leaving the table
unchanged; otherwise the new row is appended and returned. -/
def create_category (st : Store) (category : CategoryCreate) :
    Except ApiError Category × Store :=
  if st.categories.any (fun c => c.name == category.name) then
    (.error .integrityError, st)
  else
    let row : Category :=
      { id := nextCategoryId st, name := category.name,
        description := category.description }
    (.ok row, { st with categories := st.categories ++ [row] })

/-- `GET /categories/` (`get_categories`): `db.query(Category).all()`. -/
def get_categories (st : Store) : List Category × Store :=
  (st.categories, st)

/-- `POST /products/` (`create_product`): inserts
`Product(**product.dict())`.  SQLite does not enforce the foreign key, so
this never fails — the result type has no error case — and `st.categories`
is never consulted. -/
def create_product (st : Store) (product : ProductCreate) : Product × Store :=
  let row : Product :=
    { id := nextProductId st, name := product.name,
      description := product.description, price := product.price,
      category_id := product.category_id, image_url := product.image_url,
      stock := product.stock }
  (row, { st with products := st.products ++ [row] })

/-- `GET /products/` (`get_products`):
`db.query(Product).offset(skip).limit(limit).all()`.  The handler defaults
are `skip = 0`, `limit = 100`; both are plain `int` parameters with no
validation (negative values are storage-defined behavior, outside this
model). -/
def get_products (st : Store) (skip limit : Nat) : List Product × Store :=
  ((st.products.drop skip).take limit, st)

/-- `GET /products/{product_id}` (`get_product`):
`filter(Product.id == product_id).first()`, raising 404 when no row
matches. -/
def get_product (st : Store) (product_id : Nat) :
    Except ApiError Product × Store :=
  match st.products.find? (fun p => p.id == product_id) with
  | none => (.error (.notFound "Product not found"), st)
  | some p => (.ok p, st)

/-- `GET /products/category/{category_id}` (`get_products_by_category`):
`filter(Product.category_id == category_id).all()` — no check that the
category exists. -/
def get_products_by_category (st : Store) (category_id : Nat) :
    List Product × Store :=
  (st.products.filter (fun p => p.category_id == category_id), st)

/-- The `for key, value in product.dict().items(): setattr(db_product, key,
value)` loop of `update_product`: every payload field overwrites the row's
field; the payload has no `id` key, so `id` is untouched. -/
def applyPayload (p : Product) (payload : ProductCreate) : Product :=
  { p with name := payload.name, description := payload.description,
           price := payload.price, category_id := payload.category_id,
           image_url := payload.image_url, stock := payload.stock }

/-- The query-then-mutate core of `update_product`: locate the first row
with the given id and overwrite its payload fields in place; `none` when no
row matches. -/
def updateFirst (product_id : Nat) (payload : ProductCreate) :
    List Product → Option (Product × List Product)
  | [] => none
  | p :: ps =>
    if p.id == product_id then
      let q := applyPayload p payload
      some (q, q :: ps)
    else
      (updateFirst product_id payload ps).map (fun r => (r.1, p :: r.2))

/-- `PUT /products/{product_id}` (`update_product`): 404 when no row matches
(before any mutation); otherwise full-replace of the matched row's payload
fields, returning the updated record. -/
def update_product (st : Store) (product_id : Nat) (payload : ProductCreate) :
    Except ApiError Product × Store :=
  match updateFirst product_id payload st.products with
  | none => (.error (.notFound "Product not found"), st)
  | some (q, ps) => (.ok q, { st with products := ps })

/-- The query-then-delete core of `delete_product`: remove the first row
with the given id; `none` when no row matches. -/
def deleteFirst (product_id : Nat) : List Product → Option (List Product)
  | [] => none
  | p :: ps =>
    if p.id == product_id then some ps
    else (deleteFirst product_id ps).map (fun qs => p :: qs)

/-- `DELETE /products/{product_id}` (`delete_product`): 404 when no row
matches (before any mutation); otherwise deletes the row and returns the
fixed confirmation message, not the entity. -/
def delete_product (st : Store) (product_id : Nat) :
    Except ApiError String × Store :=
  match deleteFirst product_id st.products with
  | none => (.error (.notFound "Product not found"), st)
  | some ps => (.ok "Product deleted successfully", { st with products := ps })

/-- Primary-key invariant of the `products` table: ids are distinct.  Holds
for every store reachable through the handlers; SQLite enforces it. -/
def Store.WF (st : Store) : Prop :=
  (st.products.map (fun p => p.id)).Nodup

/-! ### Concrete data (the spec's §8 scenario), used by the witnesses -/

/-- The freshly-bootstrapped store: both tables empty. -/
def emptyStore : Store := { categories := [], products := [] }

/-- Scenario category of spec §8. -/
def demoCategory : Category :=
  { id := 1, name := "Shirts", description := "Casual shirts" }

/-- Scenario product payload of spec §8. -/
def demoPayload : ProductCreate :=
  { name := "Blue Tee", description := "Cotton", price := 19.99,
    category_id := 1, image_url := "http://x/1.jpg", stock := 10 }

/-- Scenario product row of spec §8, as persisted. -/
def demoProduct : Product :=
  { id := 1, name := "Blue Tee", description := "Cotton", price := 19.99,
    category_id := 1, image_url := "http://x/1.jpg", stock := 10 }

/-- Store after the scenario's category creation. -/
def demoStore : Store := { categories := [demoCategory], products := [] }

/-- Store after the scenario's product creation. -/
def demoStore2 : Store :=
  { categories := [demoCategory], products := [demoProduct] }

/-- Scenario update payload of spec §8: same fields, stock set to 0. -/
def demoPayload2 : ProductCreate := { demoPayload with stock := 0 }

/-- Scenario category payload of spec §8. -/
def shirtsPayload : CategoryCreate :=
  { name := "Shirts", description := "Casual shirts" }

/-- Product payload whose `category_id` references no existing category. -/
def danglingPayload : ProductCreate := { demoPayload with category_id := 99 }

/-! ### Helper lemmas -/

/-- Bound for generated product ids: every id in the table is at most the
fold maximum. -/
theorem id_le_foldr_max (l : List Product) (p : Product) (hp : p ∈ l) :
    p.id ≤ l.foldr (fun q m => max q.id m) 0 := by
  induction l with
  | nil => cases hp
  | cons a t ih =>
    rcases List.mem_cons.mp hp with hpa | hpt
    · simp [hpa, le_max_iff]
    · simp only [List.foldr_cons, le_max_iff]
      exact Or.inr (ih hpt)

/-- `find?` locates the element after a run of failures. -/
theorem find?_after_failures (pred : Product → Bool) (q : Product)
    (hq : pred q = true) :
    ∀ (l₁ l₂ : List Product), (∀ x ∈ l₁, pred x = false) →
      (l₁ ++ q :: l₂).find? pred = some q := by
  intro l₁
  induction l₁ with
  | nil => intro l₂ _; simp [List.find?_cons, hq]
  | cons a t ih =>
    intro l₂ h
    have ha : pred a = false := h a (List.mem_cons_self a t)
    simp only [List.cons_append, List.find?_cons, ha]
    exact ih l₂ (fun x hx => h x (List.mem_cons_of_mem a hx))

/-- `updateFirst` misses exactly when no row has the id. -/
theorem updateFirst_eq_none (product_id : Nat) (payload : ProductCreate)
    (l : List Product) :
    updateFirst product_id payload l = none ↔ ∀ p ∈ l, p.id ≠ product_id := by
  induction l with
  | nil => simp [updateFirst]
  | cons a t ih =>
    by_cases ha : a.id = product_id
    · simp [updateFirst, ha]
    · simp [updateFirst, ha, ih, List.forall_mem_cons]

/-- Full characterization of a successful `updateFirst`: the table splits at
the first row carrying the id, and only that row is rewritten. -/
theorem updateFirst_eq_some (product_id : Nat) (payload : ProductCreate)
    (l : List Product) (q : Product) (l' : List Product)
    (h : updateFirst product_id payload l = some (q, l')) :
    ∃ l₁ p₀ l₂, l = l₁ ++ p₀ :: l₂ ∧ (∀ x ∈ l₁, x.id ≠ product_id) ∧
      p₀.id = product_id ∧ q = applyPayload p₀ payload ∧
      l' = l₁ ++ q :: l₂ := by
  induction l generalizing q l' with
  | nil => simp [updateFirst] at h
  | cons a t ih =>
    by_cases ha : a.id = product_id
    · have hb : (a.id == product_id) = true := by simp [ha]
      simp only [updateFirst, hb, if_true, Option.some.injEq, Prod.mk.injEq] at h
      obtain ⟨hq, hl⟩ := h
      exact ⟨[], a, t, by simp, by simp, ha, hq.symm, by simp [← hl, hq]⟩
    · have hb : (a.id == product_id) = false := by simp [ha]
      simp only [updateFirst, hb, if_false, Bool.false_eq_true,
        Option.map_eq_some'] at h
      obtain ⟨⟨q₀, qs⟩, hu, heq⟩ := h
      obtain ⟨hq, hl⟩ := Prod.mk.injEq .. ▸ heq
      obtain ⟨l₁, p₀, l₂, hsplit, hmiss, hid, hqv, hqs⟩ := ih q₀ qs hu
      refine ⟨a :: l₁, p₀, l₂, by simp [hsplit], ?_, hid, hq ▸ hqv, ?_⟩
      · intro x hx
        rcases List.mem_cons.mp hx with hxa | hxt
        · simpa [hxa] using ha
        · exact hmiss x hxt
      · simp [← hl, hqs, ← hq]

/-- `deleteFirst` misses exactly when no row has the id. -/
theorem deleteFirst_eq_none (product_id : Nat) (l : List Product) :
    deleteFirst product_id l = none ↔ ∀ p ∈ l, p.id ≠ product_id := by
  induction l with
  | nil => simp [deleteFirst]
  | cons a t ih =>
    by_cases ha : a.id = product_id
    · simp [deleteFirst, ha]
    · simp [deleteFirst, ha, ih, List.forall_mem_cons]

/-- Full characterization of a successful `deleteFirst`: exactly the first
row carrying the id is removed. -/
theorem deleteFirst_eq_some (product_id : Nat) (l l' : List Product)
    (h : deleteFirst product_id l = some l') :
    ∃ l₁ p₀ l₂, l = l₁ ++ p₀ :: l₂ ∧ (∀ x ∈ l₁, x.id ≠ product_id) ∧
      p₀.id = product_id ∧ l' = l₁ ++ l₂ := by
  induction l generalizing l' with
  | nil => simp [deleteFirst] at h
  | cons a t ih =>
    by_cases ha : a.id = product_id
    · have hb : (a.id == product_id) = true := by simp [ha]
      simp only [deleteFirst, hb, if_true, Option.some.injEq] at h
      exact ⟨[], a, t, by simp, by simp, ha, h.symm⟩
    · have hb : (a.id == product_id) = false := by simp [ha]
      simp only [deleteFirst, hb, if_false, Bool.false_eq_true,
        Option.map_eq_some'] at h
      obtain ⟨qs, hu, heq⟩ := h
      obtain ⟨l₁, p₀, l₂, hsplit, hmiss, hid, hqs⟩ := ih qs hu
      refine ⟨a :: l₁, p₀, l₂, by simp [hsplit], ?_, hid, by simp [← heq, hqs]⟩
      intro x hx
      rcases List.mem_cons.mp hx with hxa | hxt
      · simpa [hxa] using ha
      · exact hmiss x hxt

/-- A lookup misses iff no row carries the id. -/
theorem get_product_eq_notFound (st : Store) (product_id : Nat)
    (h : ∀ p ∈ st.products, p.id ≠ product_id) :
    get_product st product_id = (.error (.notFound "Product not found"), st) := by
  unfold get_product
  rw [List.find?_eq_none.mpr (fun x hx => by simp [h x hx])]

/-- A lookup returns the first row carrying the id. -/
theorem get_product_eq_ok (st : Store) (product_id : Nat) (q : Product)
    (l₁ l₂ : List Product) (hsplit : st.products = l₁ ++ q :: l₂)
    (hmiss : ∀ x ∈ l₁, x.id ≠ product_id) (hq : q.id = product_id) :
    get_product st product_id = (.ok q, st) := by
  unfold get_product
  rw [hsplit, find?_after_failures _ q (by simp [hq]) l₁ l₂
    (fun x hx => by simp [hmiss x hx])]

/-- Equation for `update_product` when no row matches. -/
theorem update_product_eq_of_none (st : Store) (product_id : Nat)
    (payload : ProductCreate)
    (hu : updateFirst product_id payload st.products = none) :
    update_product st product_id payload =
      (.error (.notFound "Product not found"), st) := by
  unfold update_product
  rw [hu]

/-- Equation for `update_product` when a row matches. -/
theorem update_product_eq_of_some (st : Store) (product_id : Nat)
    (payload : ProductCreate) (q : Product) (ps : List Product)
    (hu : updateFirst product_id payload st.products = some (q, ps)) :
    update_product st product_id payload =
      (.ok q, { st with products := ps }) := by
  unfold update_product
  rw [hu]

/-- A successful update splits the table at the first matching row and
rewrites only that row with the payload. -/
theorem update_product_ok (st : Store) (product_id : Nat)
    (payload : ProductCreate) (q : Product) (st₂ : Store)
    (h : update_product st product_id payload = (.ok q, st₂)) :
    ∃ l₁ p₀ l₂, st.products = l₁ ++ p₀ :: l₂ ∧
      (∀ x ∈ l₁, x.id ≠ product_id) ∧ p₀.id = product_id ∧
      q = applyPayload p₀ payload ∧
      st₂ = { st with products := l₁ ++ q :: l₂ } := by
  cases hu : updateFirst product_id payload st.products with
  | none =>
    rw [update_product_eq_of_none st product_id payload hu] at h
    simp at h
  | some pr =>
    obtain ⟨q₀, ps⟩ := pr
    rw [update_product_eq_of_some st product_id payload q₀ ps hu] at h
    obtain ⟨h1, h2⟩ := Prod.mk.injEq .. ▸ h
    obtain rfl : q₀ = q := by simpa using h1
    obtain ⟨l₁, p₀, l₂, hsplit, hmiss, hid, hqv, hps⟩ :=
      updateFirst_eq_some product_id payload st.products _ ps hu
    exact ⟨l₁, p₀, l₂, hsplit, hmiss, hid, hqv, by rw [← h2, hps]⟩

/-- Equation for `delete_product` when no row matches. -/
theorem delete_product_eq_of_none (st : Store) (product_id : Nat)
    (hu : deleteFirst product_id st.products = none) :
    delete_product st product_id =
      (.error (.notFound "Product not found"), st) := by
  unfold delete_product
  rw [hu]

/-- Equation for `delete_product` when a row matches. -/
theorem delete_product_eq_of_some (st : Store) (product_id : Nat)
    (ps : List Product) (hu : deleteFirst product_id st.products = some ps) :
    delete_product st product_id =
      (.ok "Product deleted successfully", { st with products := ps }) := by
  unfold delete_product
  rw [hu]

/-- A successful delete removes exactly the first matching row. -/
theorem delete_product_ok (st : Store) (product_id : Nat) (msg : String)
    (st₂ : Store) (h : delete_product st product_id = (.ok msg, st₂)) :
    msg = "Product deleted successfully" ∧
    ∃ l₁ p₀ l₂, st.products = l₁ ++ p₀ :: l₂ ∧
      (∀ x ∈ l₁, x.id ≠ product_id) ∧ p₀.id = product_id ∧
      st₂ = { st with products := l₁ ++ l₂ } := by
  cases hu : deleteFirst product_id st.products with
  | none =>
    rw [delete_product_eq_of_none st product_id hu] at h
    simp at h
  | some ps =>
    rw [delete_product_eq_of_some st product_id ps hu] at h
    obtain ⟨h1, h2⟩ := Prod.mk.injEq .. ▸ h
    obtain ⟨l₁, p₀, l₂, hsplit, hmiss, hid, hps⟩ :=
      deleteFirst_eq_some product_id st.products ps hu
    exact ⟨by simpa using h1.symm, l₁, p₀, l₂, hsplit, hmiss, hid,
      by rw [← h2, hps]⟩

/-- Every id in the table is strictly below the next generated id. -/
theorem id_lt_nextProductId (st : Store) (p : Product)
    (hp : p ∈ st.products) : p.id < nextProductId st :=
  Nat.lt_succ_of_le (id_le_foldr_max st.products p hp)

/-! ### Claims -/

/-- C1: Get-by-id postcondition: if a product with the id is present, GET
/products/{id} returns that product field-for-field with the last values
written for it (creation values, or update values if updated since); if no
row matches, the operation signals 404 instead of returning a product. -/
theorem C1_get_by_id_postcondition (st : Store) (product_id : Nat)
    (payload : ProductCreate) :
    ((∀ p ∈ st.products, p.id ≠ product_id) →
      get_product st product_id =
        (.error (.notFound "Product not found"), st))
    ∧ (∀ row st₁, create_product st payload = (row, st₁) →
        row.name = payload.name ∧ row.description = payload.description ∧
        row.price = payload.price ∧
        row.category_id = payload.category_id ∧
        row.image_url = payload.image_url ∧ row.stock = payload.stock ∧
        get_product st₁ row.id = (.ok row, st₁))
    ∧ (∀ q st₂, update_product st product_id payload = (.ok q, st₂) →
        get_product st₂ product_id = (.ok q, st₂)) := by
  refine ⟨get_product_eq_notFound st product_id, ?_, ?_⟩
  · intro row st₁ h
    rw [Prod.ext_iff] at h
    obtain ⟨h1, h2⟩ := h
    subst h1
    subst h2
    refine ⟨rfl, rfl, rfl, rfl, rfl, rfl, ?_⟩
    exact get_product_eq_ok _ _ _ st.products [] rfl
      (fun x hx => Nat.ne_of_lt (id_lt_nextProductId st x hx)) rfl
  · intro q st₂ h
    obtain ⟨l₁, p₀, l₂, hsplit, hmiss, hid, hqv, hst⟩ :=
      update_product_ok st product_id payload q st₂ h
    subst hst
    exact get_product_eq_ok _ _ _ l₁ l₂ rfl hmiss
      (by simp [hqv, applyPayload, hid])

/-- Witness for C1 at the §8 scenario data: 404 on the empty store; get
after create returns the created row; get after update returns the updated
row. -/
theorem C1_witness :
    get_product emptyStore 1 =
      (.error (.notFound "Product not found"), emptyStore)
    ∧ get_product (create_product demoStore demoPayload).2
        (create_product demoStore demoPayload).1.id =
        (.ok (create_product demoStore demoPayload).1,
          (create_product demoStore demoPayload).2)
    ∧ get_product (update_product demoStore2 1 demoPayload2).2 1 =
        (.ok (applyPayload demoProduct demoPayload2),
          (update_product demoStore2 1 demoPayload2).2) := by
  refine ⟨(C1_get_by_id_postcondition emptyStore 1 demoPayload).1
      (by simp [emptyStore]), ?_, ?_⟩
  · exact ((C1_get_by_id_postcondition demoStore 1 demoPayload).2.1
      (create_product demoStore demoPayload).1
      (create_product demoStore demoPayload).2 rfl).2.2.2.2.2.2
  · exact (C1_get_by_id_postcondition demoStore2 1 demoPayload2).2.2
      (applyPayload demoProduct demoPayload2)
      (update_product demoStore2 1 demoPayload2).2 rfl

/-- C2: Update is a full replace: with no matching row the update signals
not-found; otherwise every payload field of the stored product is
overwritten unconditionally with the payload's value (no merging), and the
operation returns the updated record. -/
theorem C2_update_full_replace (st : Store) (product_id : Nat)
    (payload : ProductCreate) :
    ((∀ p ∈ st.products, p.id ≠ product_id) →
      update_product st product_id payload =
        (.error (.notFound "Product not found"), st))
    ∧ ((∃ p ∈ st.products, p.id = product_id) →
        ∃ q st₂, update_product st product_id payload = (.ok q, st₂) ∧
          q ∈ st₂.products ∧ q.id = product_id ∧
          q.name = payload.name ∧ q.description = payload.description ∧
          q.price = payload.price ∧
          q.category_id = payload.category_id ∧
          q.image_url = payload.image_url ∧ q.stock = payload.stock) := by
  constructor
  · intro h
    exact update_product_eq_of_none st product_id payload
      ((updateFirst_eq_none product_id payload st.products).mpr h)
  · rintro ⟨p, hp, hpid⟩
    cases hu : updateFirst product_id payload st.products with
    | none =>
      exact absurd hpid
        (((updateFirst_eq_none product_id payload st.products).mp hu) p hp)
    | some pr =>
      obtain ⟨q, ps⟩ := pr
      obtain ⟨l₁, p₀, l₂, hsplit, hmiss, hid, hqv, hps⟩ :=
        updateFirst_eq_some product_id payload st.products q ps hu
      subst hqv
      exact ⟨applyPayload p₀ payload, { st with products := ps },
        update_product_eq_of_some st product_id payload _ ps hu,
        by simp [hps], by simp [applyPayload, hid],
        rfl, rfl, rfl, rfl, rfl, rfl⟩

/-- Witness for C2: not-found on the empty store; full replace at the §8
scenario store. -/
theorem C2_witness :
    update_product emptyStore 1 demoPayload =
      (.error (.notFound "Product not found"), emptyStore)
    ∧ ∃ q st₂, update_product demoStore2 1 demoPayload2 = (.ok q, st₂) ∧
        q ∈ st₂.products ∧ q.id = 1 ∧
        q.name = demoPayload2.name ∧
        q.description = demoPayload2.description ∧
        q.price = demoPayload2.price ∧
        q.category_id = demoPayload2.category_id ∧
        q.image_url = demoPayload2.image_url ∧
        q.stock = demoPayload2.stock :=
  ⟨(C2_update_full_replace emptyStore 1 demoPayload).1 (by simp [emptyStore]),
   (C2_update_full_replace demoStore2 1 demoPayload2).2
     ⟨demoProduct, by simp [demoStore2], rfl⟩⟩

/-- C3: Delete semantics: with no matching row, delete signals not-found;
otherwise it removes exactly that row, returns the fixed confirmation
message (not the entity), and a subsequent get of the id — as for ids never
created — yields not-found. -/
theorem C3_delete_semantics (st : Store) (product_id : Nat) (hwf : st.WF) :
    ((∀ p ∈ st.products, p.id ≠ product_id) →
      delete_product st product_id =
        (.error (.notFound "Product not found"), st) ∧
      get_product st product_id =
        (.error (.notFound "Product not found"), st))
    ∧ (∀ msg st₂, delete_product st product_id = (.ok msg, st₂) →
        msg = "Product deleted successfully" ∧
        st₂.categories = st.categories ∧
        (∃ l₁ p₀ l₂, st.products = l₁ ++ p₀ :: l₂ ∧ p₀.id = product_id ∧
          st₂.products = l₁ ++ l₂) ∧
        get_product st₂ product_id =
          (.error (.notFound "Product not found"), st₂)) := by
  constructor
  · intro h
    exact ⟨delete_product_eq_of_none st product_id
        ((deleteFirst_eq_none product_id st.products).mpr h),
      get_product_eq_notFound st product_id h⟩
  · intro msg st₂ h
    obtain ⟨hmsg, l₁, p₀, l₂, hsplit, hmiss, hid, hst⟩ :=
      delete_product_ok st product_id msg st₂ h
    subst hst
    have hl₂ : ∀ x ∈ l₂, x.id ≠ product_id := by
      intro x hx hxe
      have hnd := hwf
      rw [Store.WF, hsplit] at hnd
      simp only [List.map_append, List.map_cons] at hnd
      have h2 := (List.nodup_cons.mp hnd.of_append_right).1
      refine absurd ?_ h2
      rw [hid, ← hxe]
      exact List.mem_map_of_mem _ hx
    refine ⟨hmsg, rfl, ⟨l₁, p₀, l₂, hsplit, hid, rfl⟩, ?_⟩
    exact get_product_eq_notFound _ product_id (fun x hx => by
      rcases List.mem_append.mp hx with h1 | h2
      · exact hmiss x h1
      · exact hl₂ x h2)

/-- Witness for C3 at the §8 scenario data: get after delete is 404;
delete of a never-created id is 404. -/
theorem C3_witness :
    get_product (delete_product demoStore2 1).2 1 =
      (.error (.notFound "Product not found"), (delete_product demoStore2 1).2)
    ∧ delete_product emptyStore 1 =
      (.error (.notFound "Product not found"), emptyStore) := by
  constructor
  · exact ((C3_delete_semantics demoStore2 1
      (by simp [Store.WF, demoStore2])).2
      "Product deleted successfully" (delete_product demoStore2 1).2
      rfl).2.2.2
  · exact ((C3_delete_semantics emptyStore 1
      (by simp [Store.WF, emptyStore])).1 (by simp [emptyStore])).1

/-- C4: List-by-category returns exactly the products whose `category_id`
equals the given id; with zero matches — including a category id that does
not exist, the category table being never consulted — it returns an empty
list, never an error. -/
theorem C4_list_by_category (st : Store) (category_id : Nat) :
    (∀ p, p ∈ (get_products_by_category st category_id).1 ↔
        p ∈ st.products ∧ p.category_id = category_id)
    ∧ ((∀ p ∈ st.products, p.category_id ≠ category_id) →
        (get_products_by_category st category_id).1 = [])
    ∧ (∀ cats, (get_products_by_category { st with categories := cats }
        category_id).1 = (get_products_by_category st category_id).1)
    ∧ (get_products_by_category st category_id).2 = st := by
  refine ⟨?_, ?_, fun cats => rfl, rfl⟩
  · intro p
    simp [get_products_by_category, List.mem_filter]
  · intro h
    simp only [get_products_by_category]
    rw [List.filter_eq_nil_iff]
    intro x hx
    simp [h x hx]

/-- Witness for C4: membership characterization at the scenario store, and
the empty result for an id with no matches on the empty store. -/
theorem C4_witness :
    (demoProduct ∈ (get_products_by_category demoStore2 1).1 ↔
      demoProduct ∈ demoStore2.products ∧ demoProduct.category_id = 1)
    ∧ (get_products_by_category emptyStore 5).1 = [] :=
  ⟨(C4_list_by_category demoStore2 1).1 demoProduct,
   (C4_list_by_category emptyStore 5).2.1 (by simp [emptyStore])⟩

/-- C5: Pagination: listing with skip=k and limit=m returns exactly
min(m, N−k) records in stable default storage order (a sublist of the
table), an empty list when k ≥ N; handler defaults are skip=0, limit=100. -/
theorem C5_pagination (st : Store) (k m : Nat) :
    (get_products st k m).1.length = min m (st.products.length - k)
    ∧ (st.products.length ≤ k → (get_products st k m).1 = [])
    ∧ (get_products st k m).1.Sublist st.products
    ∧ get_products st 0 100 = (st.products.take 100, st)
    ∧ (get_products st k m).2 = st := by
  refine ⟨?_, ?_, ?_, by simp [get_products], rfl⟩
  · simp [get_products, List.length_take, List.length_drop]
  · intro h
    simp [get_products, List.drop_eq_nil_of_le h]
  · exact (List.take_sublist _ _).trans (List.drop_sublist _ _)

/-- Witness for C5 at the scenario store: the length law at the defaults,
and the empty result past the end of the table. -/
theorem C5_witness :
    (get_products demoStore2 0 100).1.length =
      min 100 (demoStore2.products.length - 0)
    ∧ (get_products demoStore2 5 100).1 = [] :=
  ⟨(C5_pagination demoStore2 0 100).1,
   (C5_pagination demoStore2 5 100).2.1 (by simp [demoStore2])⟩

/-- C6: Category creation and name uniqueness: with a not-yet-used name,
creation succeeds, persists one new row, and the returned record's name and
description equal the input (with a generated id); creating a second
category with the same name fails with the storage-level uniqueness
violation, not a success. -/
theorem C6_category_name_uniqueness (st : Store)
    (payload payload2 : CategoryCreate) :
    ((∀ c ∈ st.categories, c.name ≠ payload.name) →
      ∃ row, create_category st payload =
          (.ok row, { st with categories := st.categories ++ [row] }) ∧
        row.name = payload.name ∧ row.description = payload.description)
    ∧ (∀ row st₁, create_category st payload = (.ok row, st₁) →
        payload2.name = payload.name →
        create_category st₁ payload2 = (.error .integrityError, st₁)) := by
  constructor
  · intro h
    have hany : st.categories.any (fun c => c.name == payload.name) = false := by
      rw [List.any_eq_false]
      intro c hc
      simp [h c hc]
    refine ⟨⟨nextCategoryId st, payload.name, payload.description⟩,
      ?_, rfl, rfl⟩
    simp [create_category, hany]
  · intro row st₁ h hname
    cases hany : st.categories.any (fun c => c.name == payload.name) with
    | true => simp [create_category, hany] at h
    | false =>
      simp only [create_category, hany, Bool.false_eq_true, if_false] at h
      obtain ⟨h1, h2⟩ := Prod.mk.injEq .. ▸ h
      subst h2
      have hcond : (st.categories ++
          [(⟨nextCategoryId st, payload.name, payload.description⟩ :
            Category)]).any (fun c => c.name == payload2.name) = true := by
        simp [hname]
      simp [create_category, hcond]

/-- Witness for C6: creating "Shirts" on the empty store succeeds with the
input fields echoed back; creating "Shirts" again fails with the
uniqueness violation and leaves the store as it was. -/
theorem C6_witness :
    (∃ row, create_category emptyStore shirtsPayload =
        (.ok row,
          { emptyStore with categories := emptyStore.categories ++ [row] }) ∧
      row.name = shirtsPayload.name ∧
      row.description = shirtsPayload.description)
    ∧ create_category demoStore shirtsPayload =
        (.error .integrityError, demoStore) :=
  ⟨(C6_category_name_uniqueness emptyStore shirtsPayload shirtsPayload).1
      (by simp [emptyStore]),
   (C6_category_name_uniqueness emptyStore shirtsPayload shirtsPayload).2
      demoCategory demoStore rfl rfl⟩

/-- C7: Product creation accepts dangling references: creation always
succeeds (the result type has no failure case), persists the payload's
fields with a generated id, and never consults the category table, so a
dangling `category_id` is accepted silently. -/
theorem C7_create_product_dangling (st : Store) (payload : ProductCreate) :
    (∀ row st₁, create_product st payload = (row, st₁) →
      row.name = payload.name ∧ row.description = payload.description ∧
      row.price = payload.price ∧ row.category_id = payload.category_id ∧
      row.image_url = payload.image_url ∧ row.stock = payload.stock ∧
      st₁.products = st.products ++ [row] ∧
      st₁.categories = st.categories)
    ∧ ((∀ c ∈ st.categories, c.id ≠ payload.category_id) →
        (create_product st payload).2.products =
          st.products ++ [(create_product st payload).1]) := by
  constructor
  · intro row st₁ h
    rw [Prod.ext_iff] at h
    obtain ⟨h1, h2⟩ := h
    subst h1
    subst h2
    exact ⟨rfl, rfl, rfl, rfl, rfl, rfl, rfl, rfl⟩
  · intro _
    rfl

/-- Witness for C7: a payload pointing at category 99 — which does not
exist in the store — is persisted all the same. -/
theorem C7_witness :
    (create_product demoStore danglingPayload).2.products =
      demoStore.products ++ [(create_product demoStore danglingPayload).1]
    ∧ (create_product demoStore danglingPayload).1.category_id =
        danglingPayload.category_id :=
  ⟨(C7_create_product_dangling demoStore danglingPayload).2
      (by simp [demoStore, demoCategory, danglingPayload, demoPayload]),
   ((C7_create_product_dangling demoStore danglingPayload).1
      (create_product demoStore danglingPayload).1
      (create_product demoStore danglingPayload).2 rfl).2.2.2.1⟩

/-- C8: Category immutability: no exposed operation other than category
creation modifies the category table — every product operation and the
category list leave it unchanged, category creation only appends, and a
failed category creation leaves the store as it was; categories are never
updated or deleted. -/
theorem C8_category_immutability (st : Store) (cp : CategoryCreate)
    (pp : ProductCreate) (product_id category_id skip limit : Nat) :
    (create_product st pp).2.categories = st.categories
    ∧ (get_products st skip limit).2.categories = st.categories
    ∧ (get_product st product_id).2.categories = st.categories
    ∧ (get_products_by_category st category_id).2.categories = st.categories
    ∧ (get_categories st).2.categories = st.categories
    ∧ (update_product st product_id pp).2.categories = st.categories
    ∧ (delete_product st product_id).2.categories = st.categories
    ∧ (∀ row st₁, create_category st cp = (.ok row, st₁) →
        st₁.categories = st.categories ++ [row])
    ∧ (∀ e, (create_category st cp).1 = .error e →
        (create_category st cp).2 = st) := by
  refine ⟨rfl, rfl, ?_, rfl, rfl, ?_, ?_, ?_, ?_⟩
  · cases h : st.products.find? (fun p => p.id == product_id) <;>
      simp [get_product, h]
  · cases hu : updateFirst product_id pp st.products with
    | none => rw [update_product_eq_of_none st product_id pp hu]
    | some pr =>
      obtain ⟨q, ps⟩ := pr
      rw [update_product_eq_of_some st product_id pp q ps hu]
  · cases hu : deleteFirst product_id st.products with
    | none => rw [delete_product_eq_of_none st product_id hu]
    | some ps => rw [delete_product_eq_of_some st product_id ps hu]
  · intro row st₁ h
    cases hany : st.categories.any (fun c => c.name == cp.name) with
    | true => simp [create_category, hany] at h
    | false =>
      simp only [create_category, hany, Bool.false_eq_true, if_false] at h
      obtain ⟨h1, h2⟩ := Prod.mk.injEq .. ▸ h
      rw [← h2]
      have h3 : (⟨nextCategoryId st, cp.name, cp.description⟩ : Category)
          = row := by
        simpa using h1
      simp [← h3]
  · intro e h
    cases hany : st.categories.any (fun c => c.name == cp.name) with
    | true => simp [create_category, hany]
    | false => simp [create_category, hany] at h

/-- Witness for C8: category creation on the empty store only appends, and
the failing duplicate creation leaves the store untouched. -/
theorem C8_witness :
    demoStore.categories = emptyStore.categories ++ [demoCategory]
    ∧ (create_category demoStore shirtsPayload).2 = demoStore := by
  constructor
  · exact (C8_category_immutability emptyStore shirtsPayload demoPayload
      1 1 0 100).2.2.2.2.2.2.2.1 demoCategory demoStore rfl
  · exact (C8_category_immutability demoStore shirtsPayload demoPayload
      1 1 0 100).2.2.2.2.2.2.2.2 .integrityError rfl

/-- C9: Not-found atomicity: whenever get-by-id, update, or delete of a
product signals an error, the store comes out exactly as it went in — the
404 is raised before any mutation, so an error response never has a side
effect. -/
theorem C9_notFound_atomicity (st : Store) (product_id : Nat)
    (payload : ProductCreate) :
    (∀ e, (get_product st product_id).1 = .error e →
      (get_product st product_id).2 = st)
    ∧ (∀ e, (update_product st product_id payload).1 = .error e →
      (update_product st product_id payload).2 = st)
    ∧ (∀ e, (delete_product st product_id).1 = .error e →
      (delete_product st product_id).2 = st) := by
  refine ⟨?_, ?_, ?_⟩
  · intro e _
    cases h : st.products.find? (fun p => p.id == product_id) <;>
      simp [get_product, h]
  · intro e he
    cases hu : updateFirst product_id payload st.products with
    | none => rw [update_product_eq_of_none st product_id payload hu]
    | some pr =>
      obtain ⟨q, ps⟩ := pr
      rw [update_product_eq_of_some st product_id payload q ps hu] at he
      simp at he
  · intro e he
    cases hu : deleteFirst product_id st.products with
    | none => rw [delete_product_eq_of_none st product_id hu]
    | some ps =>
      rw [delete_product_eq_of_some st product_id ps hu] at he
      simp at he

/-- Witness for C9: all three operations 404 on the empty store and hand it
back unchanged. -/
theorem C9_witness :
    (get_product emptyStore 1).2 = emptyStore
    ∧ (update_product emptyStore 1 demoPayload).2 = emptyStore
    ∧ (delete_product emptyStore 1).2 = emptyStore :=
  ⟨(C9_notFound_atomicity emptyStore 1 demoPayload).1
      (.notFound "Product not found") rfl,
   (C9_notFound_atomicity emptyStore 1 demoPayload).2.1
      (.notFound "Product not found") rfl,
   (C9_notFound_atomicity emptyStore 1 demoPayload).2.2
      (.notFound "Product not found") rfl⟩

/-- C10: Id stability under update: the update payload has no id field, so
a successful update rewrites only the six payload fields of the matched
row, keeping its id; update and delete leave every other row — and the
category table — unchanged, the table splitting around the single affected
row. -/
theorem C10_id_stability (st : Store) (product_id : Nat)
    (payload : ProductCreate) :
    (∀ q st₂, update_product st product_id payload = (.ok q, st₂) →
      q.id = product_id ∧ st₂.categories = st.categories ∧
      ∃ l₁ p₀ l₂, st.products = l₁ ++ p₀ :: l₂ ∧ p₀.id = product_id ∧
        q = applyPayload p₀ payload ∧ q.id = p₀.id ∧
        st₂.products = l₁ ++ q :: l₂)
    ∧ (∀ msg st₂, delete_product st product_id = (.ok msg, st₂) →
      st₂.categories = st.categories ∧
      ∃ l₁ p₀ l₂, st.products = l₁ ++ p₀ :: l₂ ∧ p₀.id = product_id ∧
        st₂.products = l₁ ++ l₂) := by
  constructor
  · intro q st₂ h
    obtain ⟨l₁, p₀, l₂, hsplit, hmiss, hid, hqv, hst⟩ :=
      update_product_ok st product_id payload q st₂ h
    subst hst
    have hqid : q.id = p₀.id := by rw [hqv]; rfl
    exact ⟨by rw [hqid, hid], rfl, l₁, p₀, l₂, hsplit, hid, hqv, hqid, rfl⟩
  · intro msg st₂ h
    obtain ⟨hmsg, l₁, p₀, l₂, hsplit, hmiss, hid, hst⟩ :=
      delete_product_ok st product_id msg st₂ h
    subst hst
    exact ⟨rfl, l₁, p₀, l₂, hsplit, hid, rfl⟩

/-- Witness for C10 at the §8 scenario store: the updated row keeps id 1,
and the delete splits the one-row table around that row. -/
theorem C10_witness :
    (applyPayload demoProduct demoPayload2).id = 1
    ∧ ∃ l₁ p₀ l₂, demoStore2.products = l₁ ++ p₀ :: l₂ ∧ p₀.id = 1 ∧
        (delete_product demoStore2 1).2.products = l₁ ++ l₂ :=
  ⟨((C10_id_stability demoStore2 1 demoPayload2).1
      (applyPayload demoProduct demoPayload2)
      (update_product demoStore2 1 demoPayload2).2 rfl).1,
   ((C10_id_stability demoStore2 1 demoPayload2).2
      "Product deleted successfully" (delete_product demoStore2 1).2 rfl).2⟩

end ClothingStore
